import Mathlib

/-
Verification of the automation-test harness: a shallow embedding of
main.py, test_expandable.py, usefull/helpers.py and usefull/driver.py.

Modelling conventions:
- Python float wall-clock timestamps are modelled as rationals; the Python
  builtin round(x, 2) is modelled as rounding 100*x to the nearest integer
  (the difference to round-half-even only shows at exact half-cent ties,
  which no statement below depends on).
- A CSV file is a list of rows, a row a list of cells; a file system entry
  is Option (List Row), none meaning the file does not exist.
- Exceptions are modelled with Except String; the string is the Python
  error kind. A raised exception carries its traceback as a list of frames
  (outermost first, deepest last), as traceback.extract_tb returns it.
- The browser engine is an external collaborator: each invocation carries
  an environment recording the drivers-directory listing, whether the
  native session construction succeeds, the scenario outcome (completes,
  or raises a given exception), and the wall-clock instants at which
  datetime.now() is sampled.
-/

namespace AutomationTest

/-- Cell of a CSV row: the Python result rows hold booleans serialized as
integers, strings, integers and floats (floats modelled as rationals). -/
inductive Cell where
  | str (s : String)
  | int (n : Int)
  | rat (q : ℚ)
deriving DecidableEq, Repr

abbrev Row := List Cell

/-- Element of the data argument of append_to_csv_file: each element of
the Python list is either a plain value or itself a list (one row). -/
inductive Item where
  | cell (c : Cell)
  | list (r : Row)
deriving DecidableEq, Repr

/-- Model of the Python check type(data[0]) is list. -/
def Item.isList : Item → Bool
  | .list _ => true
  | .cell _ => false

/-- Row written for one item by csv.writer.writerows. -/
def Item.asRow : Item → Row
  | .list r => r
  | .cell c => [c]

/-- Cell written for one item by csv.writer.writerow; a nested list in a
single-row write would be stringified by the csv module, a corner the
harness never reaches (its batches are lists of rows). -/
def Item.asCell : Item → Cell
  | .cell c => c
  | .list _ => .str ""

/-- Model of helpers.create_csv_file: when the path does not name an
existing file, open it for writing and write the header row; otherwise do
nothing, leaving the existing content untouched. Returns the file content
after the call. -/
def create_csv_file (file : Option (List Row)) (header : Row) : List Row :=
  match file with
  | some rows => rows
  | none => [header]

/-- Model of helpers.append_to_csv_file: opens the file in append mode,
then inspects data[0] (raising IndexError when data is empty) to decide
between writerows (first element is a list) and writerow. Returns the file
content after the call. -/
def append_to_csv_file (file : List Row) (data : List Item) :
    Except String (List Row) :=
  match data with
  | [] => .error "IndexError: list index out of range"
  | first :: _ =>
    if first.isList then
      .ok (file ++ data.map Item.asRow)
    else
      .ok (file ++ [data.map Item.asCell])

/-- Entry of a Python traceback, as returned by traceback.extract_tb:
filename, line number, function name and source text of the statement. -/
structure Frame where
  filename : String
  line : Int
  funcName : String
  lineCode : String
deriving DecidableEq, Repr

/-- Model of helpers.analyse_error: reads the current exception traceback
and takes its last entry, traceback.extract_tb(tb)[-1], which is the
deepest frame; indexing [-1] on an empty traceback raises IndexError. The
console output controlled by the output flag is not modelled. -/
def analyse_error (tb : List Frame) : Except String Row :=
  match tb.getLast? with
  | none => .error "IndexError: list index out of range"
  | some f => .ok [.str f.filename, .int f.line, .str f.funcName, .str f.lineCode]

/-- Python round(x, 2): round to two decimal places. -/
def round2 (q : ℚ) : ℚ := ((round (100 * q) : ℤ) : ℚ) / 100

/-- Python int() applied to a float: truncation toward zero. -/
def truncInt (q : ℚ) : Int := if 0 ≤ q then ⌊q⌋ else -⌊-q⌋

/-- State of a helpers.TimeMeasure object: start_time, end_time and the
hidden attribute backing the elapsed_seconds property. -/
structure TimeMeasure where
  start_time : ℚ
  end_time : ℚ
  elapsedStore : ℚ
deriving DecidableEq, Repr

/-- TimeMeasure.__init__: all three attributes start at 0. -/
def TimeMeasure.init : TimeMeasure := ⟨0, 0, 0⟩

/-- TimeMeasure.start: records the current timestamp as start_time. -/
def TimeMeasure.start (t : TimeMeasure) (now : ℚ) : TimeMeasure :=
  { t with start_time := now }

/-- Getter of the elapsed_seconds property: recomputes the backing store
from start_time and end_time (sampling the clock when end_time is still
0), and returns the recomputed value rounded to two decimals. The
assignment to the backing store is invisible to later reads, because every
read recomputes it, so the getter is modelled as a pure function. -/
def TimeMeasure.elapsed_seconds (t : TimeMeasure) (now : ℚ) : ℚ :=
  if t.end_time = 0 then round2 (now - t.start_time)
  else round2 (t.end_time - t.start_time)

/-- TimeMeasure.stop: records end_time, then stores the integer-truncated
difference through the elapsed_seconds setter. -/
def TimeMeasure.stop (t : TimeMeasure) (now : ℚ) : TimeMeasure :=
  let t1 := { t with end_time := now }
  { t1 with elapsedStore := ((truncInt (t1.end_time - t1.start_time) : ℤ) : ℚ) }

/-- The two driver classes registered in usefull/driver.py. -/
inductive BrowserKind where
  | chrome
  | firefox
deriving DecidableEq, Repr

/-- Value of the browser attribute set by each __init__. -/
def BrowserKind.browser : BrowserKind → String
  | .chrome => "chrome"
  | .firefox => "firefox"

/-- Directory argument of the default executable_path of each class. -/
def BrowserKind.driversDirectory : BrowserKind → String
  | .chrome => "drivers/chrome"
  | .firefox => "drivers/gecko"

/-- The AvailableBrowserDrivers mapping, in insertion order. -/
def AvailableBrowserDrivers : List (String × BrowserKind) :=
  [("chrome", .chrome), ("firefox", .firefox)]

/-- The list main.py builds: list(AvailableBrowserDrivers.values()). -/
def drivers : List BrowserKind := AvailableBrowserDrivers.map Prod.snd

/-- The AvailableUserAgents list of usefull/driver.py. -/
def AvailableUserAgents : List String :=
  ["Mozilla/5.0 (iPhone; U; CPU iPhone OS 3_0 like Mac OS X; en-us) AppleWebKit/528.18 (KHTML, like Gecko) Version/4.0 Mobile/7A341 Safari/528.16"]

/-- Model of driver.get_driver: os.listdir raises FileNotFoundError when
the directory is missing (listing = none); drivers[0] raises IndexError
when the listing is empty; otherwise os.path.join of directory and first
entry. -/
def get_driver (directory_path : String) (listing : Option (List String)) :
    Except String String :=
  match listing with
  | none => .error "FileNotFoundError"
  | some [] => .error "IndexError: list index out of range"
  | some (d :: _) => .ok (directory_path ++ "/" ++ d)

/-- State of a selenium Options or FirefoxOptions object: the added
arguments and the set preferences, in call order. -/
structure Options where
  arguments : List String
  preferences : List (String × String)
deriving DecidableEq, Repr

/-- A freshly constructed Options() object. -/
def Options.empty : Options := ⟨[], []⟩

def Options.add_argument (o : Options) (a : String) : Options :=
  { o with arguments := o.arguments ++ [a] }

def Options.set_preference (o : Options) (k v : String) : Options :=
  { o with preferences := o.preferences ++ [(k, v)] }

/-- Options object produced by ChromeDriver.__init__: when an options
object is supplied it is taken as-is (a selenium Options object is always
truthy); otherwise a fresh Options() is built and the user_agent setter
runs (adding a user-agent argument when the agent is truthy), then the
headless setter (adding headless and window-size arguments when true). -/
def chromeDriverOptions (headless : Bool) (user_agent : Option String)
    (options : Option Options) : Options :=
  match options with
  | some o => o
  | none =>
    let o := Options.empty
    let o := match user_agent with
      | some a => if a = "" then o else o.add_argument ("--user-agent=" ++ a)
      | none => o
    if headless then (o.add_argument "headless").add_argument "--window-size=1920,1080"
    else o

/-- Options object produced by FirefoxDriver.__init__: as-is when
supplied; otherwise the headless setter runs first (adding only the
headless argument; the window-size assignment sets a plain attribute),
then the user_agent setter (setting the useragent-override preference when
the agent is truthy). -/
def firefoxDriverOptions (headless : Bool) (user_agent : Option String)
    (options : Option Options) : Options :=
  match options with
  | some o => o
  | none =>
    let o := Options.empty
    let o := if headless then o.add_argument "headless" else o
    match user_agent with
    | some a => if a = "" then o else o.set_preference "general.useragent.override" a
    | none => o

/-- Environment a driver construction runs against: the listing of its
drivers directory (none when the directory is missing) and the error, if
any, raised by the native selenium session constructor. -/
structure DriverEnv where
  dirListing : Option (List String)
  sessionError : Option String
deriving DecidableEq, Repr

/-- A raised Python exception: its type name and its traceback frames,
deepest frame last. -/
structure PyError where
  typeName : String
  frames : List Frame
deriving DecidableEq, Repr

/-- Environment of one test_expandable invocation: the driver-construction
environment, the scenario outcome (none when all six steps of
test_scenario complete, otherwise the raised exception), and the
datetime.now() samples taken at timer.start, at the elapsed_seconds read
inside the except branch, and at timer.stop in the finally block. -/
structure Invocation where
  env : DriverEnv
  scenario : Option PyError
  tStart : ℚ
  tExcept : ℚ
  tStop : ℚ
deriving DecidableEq, Repr

/-- Driver handle construction, driver_class(user_agent=...): evaluates
get_driver on the drivers directory of the class, then runs the native
session constructor; any failure is raised. On success the handle is
represented by its browser tag. -/
def constructDriver (k : BrowserKind) (env : DriverEnv) : Except String String :=
  match get_driver k.driversDirectory env.dirListing with
  | .error e => .error e
  | .ok _ =>
    match env.sessionError with
    | some e => .error e
    | none => .ok k.browser

/-- Model of test_expandable: constructs the driver (errors here escape,
the try block has not been entered), starts the timer, runs the scenario.
On success the finally block runs stop and close, then the record is built
reading the elapsed_seconds property. On an exception the record is built
inside the except branch, analyse_error first and the property read after
it while end_time is still 0; the finally block then runs stop and close
before the record is returned. The second component counts the calls to
driver.close. -/
def test_expandable (k : BrowserKind) (inv : Invocation) :
    Except String Row × Nat :=
  match constructDriver k inv.env with
  | .error e => (.error e, 0)
  | .ok browser =>
    let timer := TimeMeasure.init.start inv.tStart
    match inv.scenario with
    | none =>
      let timer1 := timer.stop inv.tStop
      (.ok [.int 1, .str browser, .rat (timer1.elapsed_seconds inv.tStop),
            .str "", .str "", .str "", .str "", .str ""], 1)
    | some e =>
      match analyse_error e.frames with
      | .error e2 => (.error e2, 1)
      | .ok errorData =>
        (.ok ([.int 0, .str browser, .rat (timer.elapsed_seconds inv.tExcept),
               .str e.typeName] ++ errorData), 1)

/-- The header row written by main.py. -/
def header : Row :=
  [.str "Passed", .str "Browser", .str "Execution time", .str "Error",
   .str "Filename", .str "Line", .str "Function", .str "Error code"]

/-- Ordered gather of executor.map(test_expandable, drivers): results are
collected in input order, and iterating the results re-raises the first
failing invocation in that order. The world argument supplies the
environment of each (iteration, backend) invocation. -/
def gather (world : Nat → BrowserKind → Invocation) (i : Nat) :
    List BrowserKind → Except String (List Row)
  | [] => .ok []
  | k :: ks =>
    match (test_expandable k (world i k)).fst with
    | .error e => .error e
    | .ok r =>
      match gather world i ks with
      | .error e => .error e
      | .ok rs => .ok (r :: rs)

/-- One repeat iteration of main.py: res = list(executor.map(...)). -/
def runBatch (world : Nat → BrowserKind → Invocation) (i : Nat) :
    Except String (List Row) :=
  gather world i drivers

/-- The repeat loop of main.py: each iteration gathers one batch and
appends it to the file. -/
def mainIter (world : Nat → BrowserKind → Invocation) :
    Nat → Nat → List Row → Except String (List Row)
  | 0, _, file => .ok file
  | n + 1, i, file =>
    match runBatch world i with
    | .error e => .error e
    | .ok batch =>
      match append_to_csv_file file (batch.map Item.list) with
      | .error e => .error e
      | .ok file2 => mainIter world n (i + 1) file2

/-- Model of main.py main(repeat): ensures the log file exists with the
header, then runs the repeat loop. The file0 argument is the prior content
of the log file at the computed path, none when absent; the returned value
is the final file content. -/
def main (world : Nat → BrowserKind → Invocation) (repeatCount : Nat)
    (file0 : Option (List Row)) : Except String (List Row) :=
  mainIter world repeatCount 0 (create_csv_file file0 header)

/-! Concrete run environments used by the closed witness statements. -/

/-- Environment where the chrome drivers directory holds one binary and
the native session constructs without error. -/
def okEnv : DriverEnv := ⟨some ["chromedriver"], none⟩

/-- Invocation whose scenario completes all six steps. -/
def okInv : Invocation := ⟨okEnv, none, 0, 1, 2⟩

/-- Frame of the failing assert inside test_scenario. -/
def tbFrame : Frame := ⟨"test_expandable.py", 30, "test_scenario", "assert banner_element"⟩

/-- Frame of the scenario call site inside test_expandable. -/
def callFrame : Frame := ⟨"test_expandable.py", 88, "test_expandable", "test_scenario(driver)"⟩

/-- An exception whose traceback has two frames, deepest last. -/
def failErr : PyError := ⟨"AssertionError", [callFrame, tbFrame]⟩

/-- Invocation whose scenario raises failErr. -/
def failInv : Invocation := ⟨okEnv, some failErr, 0, 1, 2⟩

/-- Invocation whose drivers directory exists but holds no binary. -/
def noBinInv : Invocation := ⟨⟨some [], none⟩, none, 0, 1, 2⟩

/-- World in which every invocation runs as okInv. -/
def cworld : Nat → BrowserKind → Invocation := fun _ _ => okInv

/-! Shared helper lemmas. -/

/-- Construction, when it succeeds, returns the browser tag of the class. -/
lemma constructDriver_ok_browser (k : BrowserKind) (env : DriverEnv) (b : String)
    (h : constructDriver k env = Except.ok b) : b = k.browser := by
  cases hg : get_driver k.driversDirectory env.dirListing with
  | error e => simp [constructDriver, hg] at h
  | ok p =>
    cases hs : env.sessionError with
    | some e => simp [constructDriver, hg, hs] at h
    | none =>
      simp [constructDriver, hg, hs] at h
      exact h.symm

/-- Shape of the record returned on the success path. -/
lemma test_expandable_success (k : BrowserKind) (inv : Invocation) (b : String)
    (hb : constructDriver k inv.env = Except.ok b)
    (hs : inv.scenario = none) :
    test_expandable k inv =
      (Except.ok [Cell.int 1, Cell.str k.browser,
        Cell.rat (round2 (inv.tStop - inv.tStart)),
        Cell.str "", Cell.str "", Cell.str "", Cell.str "", Cell.str ""], 1) := by
  have hbb := constructDriver_ok_browser k inv.env b hb
  subst hbb
  simp [test_expandable, hb, hs, TimeMeasure.init, TimeMeasure.start,
    TimeMeasure.stop, TimeMeasure.elapsed_seconds]

/-- Shape of the record returned on the exception path. -/
lemma test_expandable_failure (k : BrowserKind) (inv : Invocation) (b : String)
    (hb : constructDriver k inv.env = Except.ok b)
    (e : PyError) (hs : inv.scenario = some e)
    (f : Frame) (hf : e.frames.getLast? = some f) :
    test_expandable k inv =
      (Except.ok [Cell.int 0, Cell.str k.browser,
        Cell.rat (round2 (inv.tExcept - inv.tStart)), Cell.str e.typeName,
        Cell.str f.filename, Cell.int f.line, Cell.str f.funcName,
        Cell.str f.lineCode], 1) := by
  have hbb := constructDriver_ok_browser k inv.env b hb
  subst hbb
  simp [test_expandable, hb, hs, analyse_error, hf, TimeMeasure.init,
    TimeMeasure.start, TimeMeasure.elapsed_seconds]

/-- A nonempty traceback has a deepest frame. -/
lemma exists_last_frame (l : List Frame) (h : l ≠ []) : ∃ f, l.getLast? = some f := by
  cases hgl : l.getLast? with
  | none => exact absurd (List.getLast?_eq_none_iff.mp hgl) h
  | some f => exact ⟨f, rfl⟩

/-- Rounding to two decimals preserves nonnegativity. -/
lemma round2_nonneg (q : ℚ) (h : 0 ≤ q) : 0 ≤ round2 q := by
  have h100 : (0 : ℤ) ≤ round (100 * q) := by
    rw [round_eq]
    have : (0 : ℚ) ≤ 100 * q + 1 / 2 := by linarith
    exact Int.floor_nonneg.mpr this
  unfold round2
  positivity

/-- The registered backend list has two entries. -/
lemma drivers_length : drivers.length = 2 := rfl

/-- When every invocation completes, each loop iteration appends exactly
one row per registered backend. -/
lemma mainIter_ok_length (world : Nat → BrowserKind → Invocation)
    (hok : ∀ (i : Nat) (k : BrowserKind),
      ∃ r, (test_expandable k (world i k)).fst = Except.ok r) :
    ∀ (n i : Nat) (file : List Row), ∃ rows,
      mainIter world n i file = Except.ok rows ∧
      rows.length = file.length + n * drivers.length := by
  intro n
  induction n with
  | zero => intro i file; exact ⟨file, rfl, by simp⟩
  | succ m ih =>
    intro i file
    obtain ⟨r1, h1⟩ := hok i BrowserKind.chrome
    obtain ⟨r2, h2⟩ := hok i BrowserKind.firefox
    have hbatch : runBatch world i = Except.ok [r1, r2] := by
      simp [runBatch, drivers, AvailableBrowserDrivers, gather, h1, h2]
    have happ : append_to_csv_file file [Item.list r1, Item.list r2] =
        Except.ok (file ++ [r1, r2]) := by
      simp [append_to_csv_file, Item.isList, Item.asRow]
    obtain ⟨rows, hrows, hlen⟩ := ih (i + 1) (file ++ [r1, r2])
    refine ⟨rows, ?_, ?_⟩
    · simp [mainIter, hbatch, happ, hrows]
    · simp only [List.length_append, List.length_cons, List.length_nil,
        drivers_length] at hlen ⊢
      omega

/-- When construction succeeds and the traceback of a failure is
nonempty, the invocation yields a record whose second cell is the browser
tag. -/
lemma test_ok_browser_field (k : BrowserKind) (inv : Invocation)
    (hc : ∃ b, constructDriver k inv.env = Except.ok b)
    (hframes : ∀ e, inv.scenario = some e → e.frames ≠ []) :
    ∃ r, (test_expandable k inv).fst = Except.ok r ∧
      r[1]? = some (Cell.str k.browser) := by
  obtain ⟨b, hb⟩ := hc
  cases hs : inv.scenario with
  | none =>
    rw [test_expandable_success k inv b hb hs]
    exact ⟨_, rfl, rfl⟩
  | some e =>
    obtain ⟨f, hf⟩ := exists_last_frame e.frames (hframes e hs)
    rw [test_expandable_failure k inv b hb e hs f hf]
    exact ⟨_, rfl, rfl⟩

/-- Invocation measuring a success lasting two and a half seconds. -/
def c6inv : Invocation := ⟨⟨some ["chromedriver"], none⟩, none, 0, 0, 5 / 2⟩

/-! Claim theorems. -/

/-- C2: for every driver on which the scenario completes without raising
an exception, test_expandable returns a record with passed = 1, browser
equal to the browser tag of the driver, and all four error fields plus the
errorKind field equal to the empty string. -/
theorem spec_C2 (k : BrowserKind) (inv : Invocation)
    (hc : ∃ b, constructDriver k inv.env = Except.ok b)
    (hs : inv.scenario = none) :
    test_expandable k inv =
      (Except.ok [Cell.int 1, Cell.str k.browser,
        Cell.rat (round2 (inv.tStop - inv.tStart)),
        Cell.str "", Cell.str "", Cell.str "", Cell.str "", Cell.str ""], 1) := by
  obtain ⟨b, hb⟩ := hc
  exact test_expandable_success k inv b hb hs

/-- Witness for C2 at the concrete success invocation okInv. -/
theorem spec_C2_witness :
    (∃ b, constructDriver BrowserKind.chrome okInv.env = Except.ok b) ∧
    test_expandable BrowserKind.chrome okInv =
      (Except.ok [Cell.int 1, Cell.str BrowserKind.chrome.browser,
        Cell.rat (round2 (okInv.tStop - okInv.tStart)),
        Cell.str "", Cell.str "", Cell.str "", Cell.str "", Cell.str ""], 1) :=
  ⟨⟨"chrome", rfl⟩, spec_C2 BrowserKind.chrome okInv ⟨"chrome", rfl⟩ rfl⟩

/-- C3: for every exception raised inside the scenario call,
test_expandable returns a record with passed = 0, errorKind equal to the
type name of the exception, and the four site fields taken from the
deepest frame of its traceback; the exception does not propagate out. -/
theorem spec_C3 (k : BrowserKind) (inv : Invocation)
    (hc : ∃ b, constructDriver k inv.env = Except.ok b)
    (e : PyError) (hs : inv.scenario = some e)
    (f : Frame) (hf : e.frames.getLast? = some f) :
    test_expandable k inv =
      (Except.ok [Cell.int 0, Cell.str k.browser,
        Cell.rat (round2 (inv.tExcept - inv.tStart)), Cell.str e.typeName,
        Cell.str f.filename, Cell.int f.line, Cell.str f.funcName,
        Cell.str f.lineCode], 1) := by
  obtain ⟨b, hb⟩ := hc
  exact test_expandable_failure k inv b hb e hs f hf

/-- Witness for C3 at the concrete failing invocation failInv, whose
traceback has two frames: the deepest one, tbFrame, is recorded. -/
theorem spec_C3_witness :
    (∃ b, constructDriver BrowserKind.firefox failInv.env = Except.ok b) ∧
    failErr.frames.getLast? = some tbFrame ∧
    test_expandable BrowserKind.firefox failInv =
      (Except.ok [Cell.int 0, Cell.str BrowserKind.firefox.browser,
        Cell.rat (round2 (failInv.tExcept - failInv.tStart)),
        Cell.str failErr.typeName, Cell.str tbFrame.filename,
        Cell.int tbFrame.line, Cell.str tbFrame.funcName,
        Cell.str tbFrame.lineCode], 1) :=
  ⟨⟨"firefox", rfl⟩, rfl,
   spec_C3 BrowserKind.firefox failInv ⟨"firefox", rfl⟩ failErr rfl tbFrame rfl⟩

/-- C4: whenever driver construction succeeds, close is called exactly
once, on the success path and on every exception path of the scenario
call. -/
theorem spec_C4 (k : BrowserKind) (inv : Invocation)
    (hc : ∃ b, constructDriver k inv.env = Except.ok b) :
    (test_expandable k inv).snd = 1 := by
  obtain ⟨b, hb⟩ := hc
  cases hs : inv.scenario with
  | none => simp [test_expandable, hb, hs]
  | some e =>
    cases ha : analyse_error e.frames with
    | error e2 => simp [test_expandable, hb, hs, ha]
    | ok errorData => simp [test_expandable, hb, hs, ha]

/-- Witness for C4 at the concrete failing invocation failInv. -/
theorem spec_C4_witness :
    (∃ b, constructDriver BrowserKind.chrome failInv.env = Except.ok b) ∧
    (test_expandable BrowserKind.chrome failInv).snd = 1 :=
  ⟨⟨"chrome", rfl⟩, spec_C4 BrowserKind.chrome failInv ⟨"chrome", rfl⟩⟩

/-- C5: when no automation binary is discoverable (drivers directory
missing or empty), construction fails with an error, and any construction
error is not caught by the except branch of test_expandable: the
invocation propagates the error, produces no record, and never calls
close. -/
theorem spec_C5 (k : BrowserKind) (inv : Invocation)
    (hnb : inv.env.dirListing = none ∨ inv.env.dirListing = some []) :
    (∃ e, constructDriver k inv.env = Except.error e ∧
      test_expandable k inv = (Except.error e, 0)) ∧
    ∀ e, constructDriver k inv.env = Except.error e →
      test_expandable k inv = (Except.error e, 0) := by
  have hprop : ∀ e, constructDriver k inv.env = Except.error e →
      test_expandable k inv = (Except.error e, 0) := by
    intro e he
    simp [test_expandable, he]
  refine ⟨?_, hprop⟩
  rcases hnb with h | h
  · have he : constructDriver k inv.env = Except.error "FileNotFoundError" := by
      simp [constructDriver, get_driver, h]
    exact ⟨_, he, hprop _ he⟩
  · have he : constructDriver k inv.env =
        Except.error "IndexError: list index out of range" := by
      simp [constructDriver, get_driver, h]
    exact ⟨_, he, hprop _ he⟩

/-- Witness for C5 at the concrete invocation noBinInv, whose drivers
directory is empty. -/
theorem spec_C5_witness :
    (noBinInv.env.dirListing = none ∨ noBinInv.env.dirListing = some []) ∧
    ((∃ e, constructDriver BrowserKind.chrome noBinInv.env = Except.error e ∧
       test_expandable BrowserKind.chrome noBinInv = (Except.error e, 0)) ∧
     ∀ e, constructDriver BrowserKind.chrome noBinInv.env = Except.error e →
       test_expandable BrowserKind.chrome noBinInv = (Except.error e, 0)) :=
  ⟨Or.inr rfl, spec_C5 BrowserKind.chrome noBinInv (Or.inr rfl)⟩

/-- C8: create_csv_file writes the header only when the file does not yet
exist; on an existing file the content is left unchanged, so the header
appears exactly once however many runs use the same file. -/
theorem spec_C8 :
    (∀ (rows : List Row) (hd : Row), create_csv_file (some rows) hd = rows) ∧
    ∀ hd : Row, create_csv_file none hd = [hd] :=
  ⟨fun _ _ => rfl, fun _ => rfl⟩

/-- C9: when a non-none options object is supplied to ChromeDriver or
FirefoxDriver, the headless and user_agent parameters have no effect: the
supplied object is used as-is, with no argument or preference added. -/
theorem spec_C9 (headless : Bool) (user_agent : Option String) (o : Options) :
    chromeDriverOptions headless user_agent (some o) = o ∧
    firefoxDriverOptions headless user_agent (some o) = o :=
  ⟨rfl, rfl⟩

/-- C10: append_to_csv_file on an empty data list raises IndexError from
the unconditional data[0] access, so an empty batch cannot be appended. -/
theorem spec_C10 (file : List Row) :
    append_to_csv_file file [] =
      Except.error "IndexError: list index out of range" :=
  rfl

/-- C1: a completed run of main with repeat count N appends exactly N
times drivers.length rows to the log, in addition to any rows already
present; main with repeat count 0 on a fresh file leaves the header only
and zero data rows. -/
theorem spec_C1 (world : Nat → BrowserKind → Invocation) (N : Nat)
    (file0 : Option (List Row))
    (hok : ∀ (i : Nat) (k : BrowserKind),
      ∃ r, (test_expandable k (world i k)).fst = Except.ok r) :
    (∃ rows, main world N file0 = Except.ok rows ∧
      rows.length = (create_csv_file file0 header).length + N * drivers.length) ∧
    main world 0 none = Except.ok [header] :=
  ⟨mainIter_ok_length world hok N 0 (create_csv_file file0 header), rfl⟩

/-- Witness for C1: the all-success world run three times on a fresh
file. -/
theorem spec_C1_witness :
    (∀ (i : Nat) (k : BrowserKind),
      ∃ r, (test_expandable k (cworld i k)).fst = Except.ok r) ∧
    ((∃ rows, main cworld 3 none = Except.ok rows ∧
      rows.length = (create_csv_file none header).length + 3 * drivers.length) ∧
     main cworld 0 none = Except.ok [header]) :=
  ⟨fun _ k => by cases k <;> exact ⟨_, rfl⟩,
   spec_C1 cworld 3 none (fun _ k => by cases k <;> exact ⟨_, rfl⟩)⟩

/-- C6 amended: the elapsedSeconds field of every record is nonnegative
(under a monotone clock) and equals the wall-clock span from just after
construction to scenario completion or failure rounded to two decimal
places on both paths; the integer truncation performed inside
TimeMeasure.stop never reaches the record, because the elapsed_seconds
getter recomputes the value from start_time and end_time on every read. -/
theorem spec_C6_amended (k : BrowserKind) (inv : Invocation)
    (hc : ∃ b, constructDriver k inv.env = Except.ok b)
    (hframes : ∀ e, inv.scenario = some e → e.frames ≠ [])
    (h1 : inv.tStart ≤ inv.tExcept) (h2 : inv.tStart ≤ inv.tStop) :
    ∃ r q, (test_expandable k inv).fst = Except.ok r ∧
      r[2]? = some (Cell.rat q) ∧ 0 ≤ q ∧
      q = round2 ((match inv.scenario with
        | none => inv.tStop
        | some _ => inv.tExcept) - inv.tStart) := by
  obtain ⟨b, hb⟩ := hc
  cases hs : inv.scenario with
  | none =>
    rw [test_expandable_success k inv b hb hs]
    exact ⟨_, round2 (inv.tStop - inv.tStart), rfl, rfl,
      round2_nonneg _ (by linarith), rfl⟩
  | some e =>
    obtain ⟨f, hf⟩ := exists_last_frame e.frames (hframes e hs)
    rw [test_expandable_failure k inv b hb e hs f hf]
    exact ⟨_, round2 (inv.tExcept - inv.tStart), rfl, rfl,
      round2_nonneg _ (by linarith), rfl⟩

/-- Witness for the amended C6 at the concrete failing invocation. -/
theorem spec_C6_witness :
    ((∃ b, constructDriver BrowserKind.chrome failInv.env = Except.ok b) ∧
      failInv.tStart ≤ failInv.tExcept ∧ failInv.tStart ≤ failInv.tStop) ∧
    ∃ r q, (test_expandable BrowserKind.chrome failInv).fst = Except.ok r ∧
      r[2]? = some (Cell.rat q) ∧ 0 ≤ q ∧
      q = round2 ((match failInv.scenario with
        | none => failInv.tStop
        | some _ => failInv.tExcept) - failInv.tStart) :=
  ⟨⟨⟨"chrome", rfl⟩, by norm_num [failInv], by norm_num [failInv]⟩,
   spec_C6_amended BrowserKind.chrome failInv ⟨"chrome", rfl⟩
     (fun e h => by
       have h2 : some failErr = some e := h
       injection h2 with h3
       rw [← h3]
       simp [failErr])
     (by norm_num [failInv]) (by norm_num [failInv])⟩

/-- C6 counterexample: on a successful run lasting two and a half
seconds the stop path of the timer runs inside the finally block, yet the
recorded value is 5/2 rounded to two decimals, not the whole-second
truncation 2 that the claim predicts for the stop path. -/
theorem spec_C6_counterexample :
    test_expandable BrowserKind.chrome c6inv =
      (Except.ok [Cell.int 1, Cell.str "chrome", Cell.rat (5 / 2),
        Cell.str "", Cell.str "", Cell.str "", Cell.str "", Cell.str ""], 1) ∧
    ((truncInt (5 / 2 : ℚ) : ℤ) : ℚ) ≠ (5 / 2 : ℚ) := by
  constructor
  · rw [test_expandable_success BrowserKind.chrome c6inv "chrome" rfl rfl]
    norm_num [c6inv, BrowserKind.browser, round2, round_eq]
  · norm_num [truncInt]

/-- C7: within one repeat iteration the batch is gathered in
backend-registration order; with repeat count 1 on a fresh file the log
holds the header followed by two data rows whose browser fields are
chrome then firefox. -/
theorem spec_C7 (world : Nat → BrowserKind → Invocation)
    (hok : ∀ k, ∃ b, constructDriver k ((world 0 k).env) = Except.ok b)
    (hframes : ∀ k e, (world 0 k).scenario = some e → e.frames ≠ []) :
    ∃ r1 r2, main world 1 none = Except.ok [header, r1, r2] ∧
      r1[1]? = some (Cell.str "chrome") ∧
      r2[1]? = some (Cell.str "firefox") := by
  obtain ⟨r1, h1, hb1⟩ := test_ok_browser_field BrowserKind.chrome
    (world 0 BrowserKind.chrome) (hok BrowserKind.chrome)
    (hframes BrowserKind.chrome)
  obtain ⟨r2, h2, hb2⟩ := test_ok_browser_field BrowserKind.firefox
    (world 0 BrowserKind.firefox) (hok BrowserKind.firefox)
    (hframes BrowserKind.firefox)
  refine ⟨r1, r2, ?_, hb1, hb2⟩
  have hbatch : runBatch world 0 = Except.ok [r1, r2] := by
    simp [runBatch, drivers, AvailableBrowserDrivers, gather, h1, h2]
  simp [main, mainIter, create_csv_file, hbatch, append_to_csv_file,
    Item.isList, Item.asRow]

/-- Witness for C7: the all-success world run once on a fresh file. -/
theorem spec_C7_witness :
    (∀ k : BrowserKind, ∃ b,
      constructDriver k ((cworld 0 k).env) = Except.ok b) ∧
    ∃ r1 r2, main cworld 1 none = Except.ok [header, r1, r2] ∧
      r1[1]? = some (Cell.str "chrome") ∧
      r2[1]? = some (Cell.str "firefox") :=
  ⟨fun k => ⟨k.browser, by cases k <;> rfl⟩,
   spec_C7 cworld (fun k => ⟨k.browser, by cases k <;> rfl⟩)
     (fun _ e h => nomatch h)⟩

end AutomationTest
